import Mathlib

/-
  Verification development for the aws-security-analytics-pipeline event
  processing core: a shallow embedding of the security-event classifier
  (src/cap-demo-enhancement/src/processors/security_processor/app.py), the
  metrics processor with its baseline store, anomaly detector and aggregator
  (src/cap-demo-enhancement/src/processors/metrics_processor/app.py), and the
  alert generator routing logic
  (src/cap-demo-enhancement/src/lambda/alert_generator/lambda_function.py).

  Modelling conventions:
  - Python float arithmetic is embedded as exact rational arithmetic over ℚ.
  - Python `round(x, d)` is embedded as rounding x·10^d to the nearest
    integer; no statement proved here depends on tie-breaking behaviour.
  - The float square root used via `statistics.stdev` is embedded as
    `Rat.sqrt`, which agrees with it on the perfect-square variances
    (in particular 0) that the statements below evaluate.
  - Timestamps (`classification_timestamp`, `last_updated`, ...) are
    omitted: no statement below concerns them.
-/

namespace SecurityEventProcessor

/-- The fixed threat-pattern table of `SecurityEventProcessor.__init__`
(category, keyword list), in source order. -/
def threat_patterns : List (String × List String) :=
  [("failed_login", ["authentication failed", "login failed", "invalid credentials"]),
   ("malware", ["virus detected", "trojan", "malware", "suspicious file"]),
   ("network_anomaly", ["port scan", "ddos", "unusual traffic", "network intrusion"]),
   ("privilege_escalation", ["admin access", "privilege escalation", "unauthorized access"]),
   ("data_exfiltration", ["large download", "data export", "file transfer", "sensitive data"])]

/-- Character-list helper: the first list occurs verbatim at the head of the
second list. -/
def patAtHead : List Char → List Char → Bool
  | [], _ => true
  | _ :: _, [] => false
  | p :: ps, t :: ts => p == t && patAtHead ps ts

/-- Character-list helper: the first list occurs verbatim somewhere inside
the second list. -/
def patInText (pat : List Char) : List Char → Bool
  | [] => patAtHead pat []
  | t :: ts => patAtHead pat (t :: ts) || patInText pat ts

/-- Python `pattern in event_text` substring containment. -/
def containsPattern (text pat : String) : Bool :=
  patInText pat.toList text.toList

/-- Input to `classify_threat`. The function uses the raw event only through
`json.dumps(event_data).lower()`; `parsed text` carries that lowercased
serialized form. `malformed err` stands for an event on which serialization
raises, taking the function into its `except` handler. -/
inductive RawInput where
  | parsed (text : String)
  | malformed (err : String)

/-- Result dictionary of `classify_threat` (timestamp field omitted). -/
structure ThreatClassification where
  threats_detected : List String
  severity : String
  risk_score : ℕ
  error : Option String
deriving DecidableEq, Repr

/-- The categories whose keyword set matches the event text: the inner loop
of `classify_threat` appends each `threat_type` at most once (it breaks after
the first matching pattern), in table order. -/
def detected_threats (event_text : String) : List String :=
  (threat_patterns.filter (fun tp => tp.2.any (fun p => containsPattern event_text p))).map
    (fun tp => tp.1)

/-- `SecurityEventProcessor.classify_threat` (app.py lines 87-135): pattern
table matching, severity from the number of detected categories, risk score
25 per category capped at 100; the exception path returns the fail-open
default whose severity is the string unknown. -/
def classify_threat : RawInput → ThreatClassification
  | .parsed text =>
      let detected := detected_threats text
      let severity :=
        if 1 < detected.length then "high"
        else if 0 < detected.length then "medium"
        else "low"
      let risk_score := min (detected.length * 25) 100
      { threats_detected := detected, severity := severity, risk_score := risk_score,
        error := none }
  | .malformed err =>
      { threats_detected := [], severity := "unknown", risk_score := 0, error := some err }

/-- Kafka consumer configuration fields set by `setup_consumer`
(app.py lines 67-85). -/
structure ConsumerConfig where
  topic : String
  group_id : String
  auto_offset_reset : String
  enable_auto_commit : Bool
  auto_commit_interval_ms : ℕ
deriving DecidableEq, Repr

/-- The configuration `setup_consumer` builds (defaults of `__init__`). -/
def security_consumer_config : ConsumerConfig :=
  { topic := "security-logs", group_id := "security-processor-group",
    auto_offset_reset := "latest", enable_auto_commit := true,
    auto_commit_interval_ms := 1000 }

/-- `store_in_s3` (app.py lines 174-208) as a function of the put outcome: a
failed `put_object` is caught and the function returns `None`; no exception
escapes to the caller. -/
def store_in_s3 (putSucceeded : Bool) (s3_key : String) : Option String :=
  if putSucceeded then some s3_key else none

/-- Modelled from the spec and the kafka-python client semantics (the client
library is not part of src/): with `enable_auto_commit=True` the consumer
commits offsets on a fixed interval, independently of what per-message
processing did; `process_event` never raises (all failures are caught) and
the code contains no manual commit, so whether a consumed message's offset is
committed does not depend on the store-write outcome. -/
def message_acknowledged (cfg : ConsumerConfig) (storeWriteSucceeded : Bool) : Bool :=
  cfg.enable_auto_commit

end SecurityEventProcessor

namespace MetricsProcessor

/-- Python `statistics.mean` over exact rationals: sum divided by length. -/
def listMean (l : List ℚ) : ℚ := l.sum / l.length

/-- Python `statistics.stdev` squared: the sample variance
sum of squared deviations divided by n-1 (call sites guard length at least 2). -/
def sampleVariance (l : List ℚ) : ℚ :=
  ((l.map (fun x => (x - listMean l) ^ 2)).sum) / ((l.length : ℚ) - 1)

/-- Python `statistics.stdev`: the square root of the sample variance,
embedded as the rational square root (exact on the perfect-square variances
the statements below evaluate, in particular 0). -/
def sampleStdDev (l : List ℚ) : ℚ := Rat.sqrt (sampleVariance l)

/-- One entry of `self.baseline_metrics` (app.py lines 230-237);
`last_updated` omitted. -/
structure Baseline where
  avg : ℚ
  stddev : ℚ
  min : ℚ
  max : ℚ
  sample_count : ℕ
deriving DecidableEq, Repr

/-- The mutable in-process maps of `MetricsProcessor`: `customer_metrics`
(per customer and metric type, value entries only; the timestamp stored next
to each value is never read) and `baseline_metrics` (keyed by the
concatenated string key). The sliding windows feed only the aggregation
thread and are modelled separately through `calculate_aggregations`. -/
structure MetricsState where
  customerMetrics : String → String → List ℚ
  baselineMetrics : String → Option Baseline

/-- Fresh processor state: empty history, no baselines (defaultdicts). -/
def initState : MetricsState :=
  { customerMetrics := fun _ _ => [], baselineMetrics := fun _ => none }

/-- The baseline key string built by `detect_anomalies` and
`update_baseline`. -/
def baselineKey (customer_id metric_type : String) : String :=
  customer_id ++ "_" ++ metric_type

/-- The baseline dictionary recomputed by `update_baseline` once enough
history exists (app.py lines 230-237). -/
def computeBaseline (values : List ℚ) : Baseline :=
  { avg := listMean values
    stddev := if 1 < values.length then sampleStdDev values else 0
    min := values.min?.getD 0
    max := values.max?.getD 0
    sample_count := values.length }

/-- The history cap of `update_baseline`: Python `history[-1000:]` applied
when the history exceeds 1000 entries. -/
def keepLast1000 (l : List ℚ) : List ℚ :=
  if 1000 < l.length then l.drop (l.length - 1000) else l

/-- `MetricsProcessor.update_baseline` (app.py lines 203-240): append the
value to the per-key history, keep only the last 1000 entries, and when at
least 50 entries exist recompute the whole baseline entry from the kept
history. -/
def update_baseline (s : MetricsState) (customer_id metric_type : String) (v : ℚ) :
    MetricsState :=
  let hist := keepLast1000 (s.customerMetrics customer_id metric_type ++ [v])
  { customerMetrics := fun c m =>
      if c = customer_id ∧ m = metric_type then hist else s.customerMetrics c m
    baselineMetrics :=
      if 50 ≤ hist.length then
        fun k =>
          if k = baselineKey customer_id metric_type then some (computeBaseline hist)
          else s.baselineMetrics k
      else s.baselineMetrics }

/-- A consumed metric message, reduced to the three fields `process_metric`
reads. A missing `value` is kept as `none` because the call sites default it
differently (`get('value', 0)` in `process_metric` and `detect_anomalies`,
filtered out in `calculate_aggregations`); `customer_id` and `metric_type`
carry the code's `'unknown'` default already applied. -/
structure MetricSample where
  customer_id : String
  metric_type : String
  value : Option ℚ
deriving DecidableEq, Repr

/-- Result dictionary of `detect_anomalies`. The no-baseline branch returns
a dictionary carrying only `is_anomaly`, `severity`, `baseline_available`;
the absent fields are `none` here. -/
structure AnomalyAnalysis where
  is_anomaly : Bool
  severity : String
  z_score : Option ℚ
  baseline_avg : Option ℚ
  baseline_stddev : Option ℚ
  current_value : Option ℚ
  deviation_percent : Option ℚ
  baseline_available : Bool
deriving DecidableEq, Repr

/-- Python `round(q, d)`: round q·10^d to the nearest integer (tie-breaking
differences from the float banker's rounding never arise below). -/
def roundTo (d : ℕ) (q : ℚ) : ℚ := ((round (q * 10 ^ d) : ℤ) : ℚ) / 10 ^ d

/-- `MetricsProcessor.detect_anomalies` (app.py lines 135-201): look up the
baseline for the key; without one report no anomaly and no baseline;
otherwise z-score the value against the stored mean and standard deviation
(z = 0 when the standard deviation is not positive) and grade it by the
3 / 2 / 1.5 thresholds. -/
def detect_anomalies (s : MetricsState) (customer_id metric_type : String)
    (current_metric : MetricSample) : AnomalyAnalysis :=
  let current_value := current_metric.value.getD 0
  match s.baselineMetrics (baselineKey customer_id metric_type) with
  | none =>
      { is_anomaly := false, severity := "normal", z_score := none, baseline_avg := none,
        baseline_stddev := none, current_value := none, deviation_percent := none,
        baseline_available := false }
  | some b =>
      let z_score := if 0 < b.stddev then |current_value - b.avg| / b.stddev else 0
      let graded :=
        if 3 < z_score then ("critical", true)
        else if 2 < z_score then ("high", true)
        else if 3 / 2 < z_score then ("medium", true)
        else ("normal", false)
      { is_anomaly := graded.2, severity := graded.1, z_score := some (roundTo 3 z_score),
        baseline_avg := some b.avg, baseline_stddev := some b.stddev,
        current_value := some current_value,
        deviation_percent :=
          some (if 0 < b.avg then roundTo 2 (|current_value - b.avg| / b.avg * 100) else 0),
        baseline_available := true }

/-- `MetricsProcessor.process_metric` (app.py lines 242-302), restricted to
the anomaly/baseline path: detect anomalies against the current state, then
update the baseline with the same value, and attach the analysis computed
first to the enriched record. Window bookkeeping, metadata and the bronze
store write do not touch the baseline state and are omitted. -/
def process_metric (s : MetricsState) (metric_data : MetricSample) :
    AnomalyAnalysis × MetricsState :=
  let customer_id := metric_data.customer_id
  let metric_type := metric_data.metric_type
  let metric_value := metric_data.value.getD 0
  let anomaly_analysis := detect_anomalies s customer_id metric_type metric_data
  let s2 := update_baseline s customer_id metric_type metric_value
  (anomaly_analysis, s2)

/-- Repeated `update_baseline` calls for one key, one per listed value in
order. -/
def applyUpdates (customer_id metric_type : String) (s : MetricsState) (vs : List ℚ) :
    MetricsState :=
  vs.foldl (fun st v => update_baseline st customer_id metric_type v) s

end MetricsProcessor

namespace MetricsProcessor

/-- Python `sorted(values)`: an ascending sort of the value list. -/
def sortValues (l : List ℚ) : List ℚ := l.insertionSort (· ≤ ·)

/-- Python `int(len(sorted_values) * q)` for the quantiles used below: the
product is an exact nonnegative rational, so `int` truncation is the floor. -/
def pIdx (n : ℕ) (q : ℚ) : ℕ := ⌊(n : ℚ) * q⌋₊

/-- Result dictionary of `calculate_aggregations`; a key absent from the
returned dictionary is `none`. -/
structure AggResult where
  count : Option ℕ
  sum : Option ℚ
  avg : Option ℚ
  min : Option ℚ
  max : Option ℚ
  median : Option ℚ
  p50 : Option ℚ
  p90 : Option ℚ
  p95 : Option ℚ
  p99 : Option ℚ
  stddev : Option ℚ
deriving DecidableEq, Repr

/-- The empty dictionary returned on the two early-exit paths and by the
exception handler of `calculate_aggregations`. -/
def AggResult.empty : AggResult :=
  { count := none, sum := none, avg := none, min := none, max := none, median := none,
    p50 := none, p90 := none, p95 := none, p99 := none, stddev := none }

/-- Python `statistics.median` applied to an already ascending list: middle
element for odd length, mean of the two middle elements for even length. -/
def medianOfSorted (s : List ℚ) : ℚ :=
  if s.length % 2 = 1 then s.getD (s.length / 2) 0
  else (s.getD (s.length / 2 - 1) 0 + s.getD (s.length / 2) 0) / 2

/-- Python `statistics.median` on an arbitrary list: it sorts internally. -/
def listMedian (l : List ℚ) : ℚ := medianOfSorted (sortValues l)

/-- `MetricsProcessor.calculate_aggregations` (app.py lines 87-133): empty
result for an empty batch or a batch with no usable values; otherwise count,
sum, mean, min, max, median always, the percentile keys only for at least 10
values (p50 is `statistics.median(sorted_values)`, which on the sorted copy
is `medianOfSorted`; p90/p95/p99 index the sorted copy at `int(n * q)`), and
the sample standard deviation only for at least 2 values. -/
def calculate_aggregations (metrics_data : List MetricSample) : AggResult :=
  if metrics_data.isEmpty then AggResult.empty
  else
    let values := metrics_data.filterMap (fun m => m.value)
    if values.isEmpty then AggResult.empty
    else
      let n := values.length
      let sorted_values := sortValues values
      { count := some n
        sum := some values.sum
        avg := some (listMean values)
        min := values.min?
        max := values.max?
        median := some (listMedian values)
        p50 := if 10 ≤ n then some (medianOfSorted sorted_values) else none
        p90 := if 10 ≤ n then some (sorted_values.getD (pIdx n (9 / 10)) 0) else none
        p95 := if 10 ≤ n then some (sorted_values.getD (pIdx n (95 / 100)) 0) else none
        p99 := if 10 ≤ n then some (sorted_values.getD (pIdx n (99 / 100)) 0) else none
        stddev := if 1 < n then some (sampleStdDev values) else none }

end MetricsProcessor

namespace AlertGenerator

/-- One notification/side action taken by `process_security_alert`
(lambda_function.py lines 75-142). -/
inductive AlertAction where
  | snsNotification (priority : String)
  | emailNotification (alertType : String)
  | incidentTicket
deriving DecidableEq, Repr

/-- The channel-selection logic of `process_security_alert`
(lambda_function.py lines 98-118): the actions taken as a function of the
alert's severity and risk score. -/
def process_security_alert_actions (severity : String) (risk_score : ℤ) : List AlertAction :=
  if severity = "critical" ∨ 80 < risk_score then
    [.snsNotification "CRITICAL", .emailNotification "CRITICAL", .incidentTicket]
  else if severity = "high" ∨ 60 < risk_score then
    [.snsNotification "HIGH", .emailNotification "HIGH"]
  else
    [.snsNotification "MEDIUM"]

end AlertGenerator

open SecurityEventProcessor MetricsProcessor AlertGenerator

/- Harness definitions used by the statements below. -/

/-- The sample count recorded for a key, 0 when no baseline entry exists. -/
def sampleCountAt (s : MetricsState) (customer_id metric_type : String) : ℕ :=
  match s.baselineMetrics (baselineKey customer_id metric_type) with
  | none => 0
  | some b => b.sample_count

/-- Reachability invariant for one key: the kept history never exceeds the
cap, and the baseline entry is exactly the one recomputed from the kept
history once it holds at least 50 values. -/
def GoodState (cid mt : String) (s : MetricsState) : Prop :=
  (s.customerMetrics cid mt).length ≤ 1000 ∧
  s.baselineMetrics (baselineKey cid mt) =
    (if 50 ≤ (s.customerMetrics cid mt).length
     then some (computeBaseline (s.customerMetrics cid mt)) else none)

/-- A driver state holding exactly one baseline entry, used to exercise
`detect_anomalies` at a chosen baseline. -/
def stateWithBaseline (k : String) (b : Baseline) : MetricsState :=
  { customerMetrics := fun _ _ => [], baselineMetrics := fun q => if q = k then some b else none }

/-- The baseline of concrete scenario 3: mean 100, standard deviation 10
(the remaining fields are immaterial to detection). -/
def scenarioBaseline : Baseline :=
  { avg := 100, stddev := 10, min := 70, max := 130, sample_count := 50 }

/-- A concrete batch of ten metric samples with values 1..10. -/
def tenSamples : List MetricSample :=
  [⟨"c", "m", some 1⟩, ⟨"c", "m", some 2⟩, ⟨"c", "m", some 3⟩, ⟨"c", "m", some 4⟩,
   ⟨"c", "m", some 5⟩, ⟨"c", "m", some 6⟩, ⟨"c", "m", some 7⟩, ⟨"c", "m", some 8⟩,
   ⟨"c", "m", some 9⟩, ⟨"c", "m", some 10⟩]

/- Helper lemmas about the embedded aggregator. -/

lemma sortValues_sorted (l : List ℚ) : (sortValues l).Sorted (· ≤ ·) :=
  List.sorted_insertionSort _ l

lemma sortValues_perm (l : List ℚ) : (sortValues l).Perm l :=
  List.perm_insertionSort _ l

lemma sortValues_length (l : List ℚ) : (sortValues l).length = l.length :=
  (sortValues_perm l).length_eq

lemma sorted_getD_mono (l : List ℚ) (hs : l.Sorted (· ≤ ·)) {i j : ℕ} (hij : i ≤ j)
    (hj : j < l.length) : l.getD i 0 ≤ l.getD j 0 := by
  have hi : i < l.length := lt_of_le_of_lt hij hj
  rw [List.getD_eq_getElem _ _ hi, List.getD_eq_getElem _ _ hj]
  have h := hs.rel_get_of_le (a := ⟨i, hi⟩) (b := ⟨j, hj⟩) (Fin.mk_le_mk.mpr hij)
  simpa [List.get_eq_getElem] using h

lemma getD_mem (l : List ℚ) {i : ℕ} (h : i < l.length) : l.getD i 0 ∈ l := by
  rw [List.getD_eq_getElem _ _ h]
  exact List.getElem_mem h

lemma rat_min?_le {l : List ℚ} {a b : ℚ} (h : l.min? = some a) (hb : b ∈ l) : a ≤ b := by
  haveI : Std.Antisymm ((· ≤ ·) : ℚ → ℚ → Prop) := ⟨fun h1 h2 => le_antisymm h1 h2⟩
  exact ((List.min?_eq_some_iff (fun x => le_refl x) min_choice
    (fun x y z => le_min_iff)).mp h).2 b hb

lemma rat_le_max? {l : List ℚ} {a b : ℚ} (h : l.max? = some a) (hb : b ∈ l) : b ≤ a := by
  haveI : Std.Antisymm ((· ≤ ·) : ℚ → ℚ → Prop) := ⟨fun h1 h2 => le_antisymm h1 h2⟩
  exact ((List.max?_eq_some_iff (fun x => le_refl x) max_choice
    (fun x y z => max_le_iff)).mp h).2 b hb

lemma rat_min?_isSome {l : List ℚ} (h : l ≠ []) : ∃ a, l.min? = some a := by
  cases l with
  | nil => exact absurd rfl h
  | cons x t => exact ⟨_, rfl⟩

lemma rat_max?_isSome {l : List ℚ} (h : l ≠ []) : ∃ a, l.max? = some a := by
  cases l with
  | nil => exact absurd rfl h
  | cons x t => exact ⟨_, rfl⟩

lemma pIdx_90 (n : ℕ) : pIdx n (9 / 10) = 9 * n / 10 := by
  unfold pIdx
  rw [show (n : ℚ) * (9 / 10) = ((9 * n : ℕ) : ℚ) / ((10 : ℕ) : ℚ) by push_cast; ring,
    Nat.floor_div_eq_div]

lemma pIdx_95 (n : ℕ) : pIdx n (95 / 100) = 95 * n / 100 := by
  unfold pIdx
  rw [show (n : ℚ) * (95 / 100) = ((95 * n : ℕ) : ℚ) / ((100 : ℕ) : ℚ) by push_cast; ring,
    Nat.floor_div_eq_div]

lemma pIdx_99 (n : ℕ) : pIdx n (99 / 100) = 99 * n / 100 := by
  unfold pIdx
  rw [show (n : ℚ) * (99 / 100) = ((99 * n : ℕ) : ℚ) / ((100 : ℕ) : ℚ) by push_cast; ring,
    Nat.floor_div_eq_div]

lemma filterMap_values_length {samples : List MetricSample}
    (h : ∀ x ∈ samples, x.value.isSome = true) :
    (samples.filterMap (fun m => m.value)).length = samples.length := by
  induction samples with
  | nil => rfl
  | cons a t ih =>
      have ha := h a (List.mem_cons_self a t)
      obtain ⟨v, hv⟩ := Option.isSome_iff_exists.mp ha
      simp [List.filterMap_cons, hv, ih fun x hx => h x (List.mem_cons_of_mem a hx)]

/-- Unfolding of `calculate_aggregations` on a batch that passes both
emptiness guards. -/
lemma calc_agg_eq (samples : List MetricSample)
    (h1 : samples.isEmpty = false)
    (h2 : (samples.filterMap (fun m => m.value)).isEmpty = false) :
    calculate_aggregations samples =
      (let values := samples.filterMap (fun m => m.value)
       let n := values.length
       let sorted_values := sortValues values
       { count := some n
         sum := some values.sum
         avg := some (listMean values)
         min := values.min?
         max := values.max?
         median := some (listMedian values)
         p50 := if 10 ≤ n then some (medianOfSorted sorted_values) else none
         p90 := if 10 ≤ n then some (sorted_values.getD (pIdx n (9 / 10)) 0) else none
         p95 := if 10 ≤ n then some (sorted_values.getD (pIdx n (95 / 100)) 0) else none
         p99 := if 10 ≤ n then some (sorted_values.getD (pIdx n (99 / 100)) 0) else none
         stddev := if 1 < n then some (sampleStdDev values) else none } : AggResult) := by
  unfold calculate_aggregations
  rw [h1]
  simp only [Bool.false_eq_true, if_false]
  rw [h2]
  simp only [Bool.false_eq_true, if_false]

/-- Pure list-level percentile chain used for the aggregation ordering
property: minimum, median, index-based percentiles and maximum of a batch of
at least 10 values are ordered. -/
lemma perc_chain (values : List ℚ) (h10 : 10 ≤ values.length) :
    ∃ mn mx, values.min? = some mn ∧ values.max? = some mx ∧
      mn ≤ medianOfSorted (sortValues values) ∧
      medianOfSorted (sortValues values) ≤
        (sortValues values).getD (9 * values.length / 10) 0 ∧
      (sortValues values).getD (9 * values.length / 10) 0 ≤
        (sortValues values).getD (95 * values.length / 100) 0 ∧
      (sortValues values).getD (95 * values.length / 100) 0 ≤
        (sortValues values).getD (99 * values.length / 100) 0 ∧
      (sortValues values).getD (99 * values.length / 100) 0 ≤ mx := by
  have hne : values ≠ [] := by
    intro h
    rw [h] at h10
    simp at h10
  obtain ⟨mn, hmn⟩ := rat_min?_isSome hne
  obtain ⟨mx, hmx⟩ := rat_max?_isSome hne
  set n := values.length with hn
  set s := sortValues values with hsdef
  have hslen : s.length = n := sortValues_length values
  have hsort : s.Sorted (· ≤ ·) := sortValues_sorted values
  have hperm : s.Perm values := sortValues_perm values
  have hi1 : n / 2 ≤ 9 * n / 10 := by omega
  have hi2 : 9 * n / 10 ≤ 95 * n / 100 := by omega
  have hi3 : 95 * n / 100 ≤ 99 * n / 100 := by omega
  have hi4 : 99 * n / 100 < n := by omega
  have hi5 : n / 2 - 1 ≤ n / 2 := by omega
  have hmem : ∀ {i : ℕ}, i < s.length → s.getD i 0 ∈ values := fun h =>
    hperm.mem_iff.mp (getD_mem s h)
  have hb99 : 99 * n / 100 < s.length := by rw [hslen]; exact hi4
  have hb95 : 95 * n / 100 < s.length := lt_of_le_of_lt hi3 hb99
  have hb90 : 9 * n / 10 < s.length := lt_of_le_of_lt hi2 hb95
  have hb50 : n / 2 < s.length := lt_of_le_of_lt hi1 hb90
  have hb50m : n / 2 - 1 < s.length := lt_of_le_of_lt hi5 hb50
  refine ⟨mn, mx, hmn, hmx, ?_, ?_, ?_, ?_, ?_⟩
  · unfold medianOfSorted
    rw [hslen]
    split
    · exact rat_min?_le hmn (hmem hb50)
    · have h1 := rat_min?_le hmn (hmem hb50m)
      have h2 := rat_min?_le hmn (hmem hb50)
      linarith
  · unfold medianOfSorted
    rw [hslen]
    split
    · exact sorted_getD_mono s hsort hi1 hb90
    · have h1 := sorted_getD_mono s hsort (le_trans hi5 hi1) hb90
      have h2 := sorted_getD_mono s hsort hi1 hb90
      linarith
  · exact sorted_getD_mono s hsort hi2 hb95
  · exact sorted_getD_mono s hsort hi3 hb99
  · exact rat_le_max? hmx (hmem hb99)

/- Helper lemmas about the embedded baseline store. -/


lemma keepLast1000_length (l : List ℚ) : (keepLast1000 l).length = min l.length 1000 := by
  unfold keepLast1000
  split <;> simp <;> omega

lemma keepLast1000_of_le {l : List ℚ} (h : l.length ≤ 1000) : keepLast1000 l = l := by
  unfold keepLast1000
  rw [if_neg (by omega)]

lemma update_baseline_hist (s : MetricsState) (cid mt : String) (v : ℚ) :
    (update_baseline s cid mt v).customerMetrics cid mt =
      keepLast1000 (s.customerMetrics cid mt ++ [v]) := by
  unfold update_baseline
  by_cases h : 50 ≤ (keepLast1000 (s.customerMetrics cid mt ++ [v])).length <;> simp [h]

lemma update_baseline_base (s : MetricsState) (cid mt : String) (v : ℚ) :
    (update_baseline s cid mt v).baselineMetrics (baselineKey cid mt) =
      (if 50 ≤ (keepLast1000 (s.customerMetrics cid mt ++ [v])).length
       then some (computeBaseline (keepLast1000 (s.customerMetrics cid mt ++ [v])))
       else s.baselineMetrics (baselineKey cid mt)) := by
  unfold update_baseline
  by_cases h : 50 ≤ (keepLast1000 (s.customerMetrics cid mt ++ [v])).length <;> simp [h]


lemma goodState_init (cid mt : String) : GoodState cid mt initState := by
  constructor <;> simp [initState, GoodState]

lemma goodState_update {cid mt : String} {s : MetricsState} (h : GoodState cid mt s) (v : ℚ) :
    GoodState cid mt (update_baseline s cid mt v) := by
  obtain ⟨hlen, hbase⟩ := h
  have hl := keepLast1000_length (s.customerMetrics cid mt ++ [v])
  rw [List.length_append, List.length_singleton] at hl
  constructor
  · rw [update_baseline_hist, hl]
    omega
  · rw [update_baseline_hist, update_baseline_base]
    split
    · rfl
    · rename_i hlt
      rw [hbase, if_neg]
      intro h50
      exact hlt (by omega)

lemma goodState_applyUpdates {cid mt : String} {s : MetricsState} (h : GoodState cid mt s)
    (vs : List ℚ) : GoodState cid mt (applyUpdates cid mt s vs) := by
  induction vs generalizing s with
  | nil => exact h
  | cons v t ih => exact ih (goodState_update h v)

lemma applyUpdates_hist_len {cid mt : String} {s : MetricsState}
    (h : (s.customerMetrics cid mt).length ≤ 1000) (vs : List ℚ) :
    ((applyUpdates cid mt s vs).customerMetrics cid mt).length =
      min ((s.customerMetrics cid mt).length + vs.length) 1000 := by
  induction vs generalizing s with
  | nil => simp [applyUpdates]; omega
  | cons v t ih =>
      have hstep : ((update_baseline s cid mt v).customerMetrics cid mt).length =
          min ((s.customerMetrics cid mt).length + 1) 1000 := by
        rw [update_baseline_hist, keepLast1000_length, List.length_append,
          List.length_singleton]
      have := ih (s := update_baseline s cid mt v) (by rw [hstep]; omega)
      rw [show applyUpdates cid mt s (v :: t) = applyUpdates cid mt (update_baseline s cid mt v) t
        from rfl, this, hstep]
      simp
      omega

lemma applyUpdates_hist_no_trunc {cid mt : String} {s : MetricsState} (vs : List ℚ)
    (h : (s.customerMetrics cid mt).length + vs.length ≤ 1000) :
    (applyUpdates cid mt s vs).customerMetrics cid mt = s.customerMetrics cid mt ++ vs := by
  induction vs generalizing s with
  | nil => simp [applyUpdates]
  | cons v t ih =>
      have hgrown : (s.customerMetrics cid mt ++ [v]).length ≤ 1000 := by
        rw [List.length_append, List.length_singleton]
        simp at h
        omega
      have hstep : (update_baseline s cid mt v).customerMetrics cid mt =
          s.customerMetrics cid mt ++ [v] := by
        rw [update_baseline_hist, keepLast1000_of_le hgrown]
      have ht : ((update_baseline s cid mt v).customerMetrics cid mt).length + t.length ≤ 1000 := by
        rw [hstep, List.length_append, List.length_singleton]
        simp at h
        omega
      rw [show applyUpdates cid mt s (v :: t) = applyUpdates cid mt (update_baseline s cid mt v) t
        from rfl, ih ht, hstep, List.append_assoc, List.singleton_append]

lemma baseline_after_init (cid mt : String) (vs : List ℚ) :
    (applyUpdates cid mt initState vs).baselineMetrics (baselineKey cid mt) =
      (if 50 ≤ min vs.length 1000
       then some (computeBaseline ((applyUpdates cid mt initState vs).customerMetrics cid mt))
       else none) := by
  have hg := goodState_applyUpdates (goodState_init cid mt) vs
  have hl := @applyUpdates_hist_len cid mt initState
    (by simp [initState]) vs
  rw [show (initState.customerMetrics cid mt).length = 0 from rfl, Nat.zero_add] at hl
  rw [hg.2, hl]

lemma sampleCountAt_after_init (cid mt : String) (vs : List ℚ) :
    sampleCountAt (applyUpdates cid mt initState vs) cid mt =
      (if 50 ≤ min vs.length 1000 then min vs.length 1000 else 0) := by
  have hl := @applyUpdates_hist_len cid mt initState
    (by simp [initState]) vs
  rw [show (initState.customerMetrics cid mt).length = 0 from rfl, Nat.zero_add] at hl
  unfold sampleCountAt
  rw [baseline_after_init]
  by_cases h : 50 ≤ min vs.length 1000
  · rw [if_pos h, if_pos h]
    simp only [computeBaseline, hl]
  · rw [if_neg h, if_neg h]

/- Helper lemmas about the embedded anomaly detector, and concrete harness
inputs used by the statements below. -/

lemma detect_anomalies_none {s : MetricsState} {cid mt : String} (m : MetricSample)
    (h : s.baselineMetrics (baselineKey cid mt) = none) :
    detect_anomalies s cid mt m =
      { is_anomaly := false, severity := "normal", z_score := none, baseline_avg := none,
        baseline_stddev := none, current_value := none, deviation_percent := none,
        baseline_available := false } := by
  unfold detect_anomalies
  rw [h]

lemma detect_anomalies_some {s : MetricsState} {cid mt : String} {b : Baseline}
    (m : MetricSample) (h : s.baselineMetrics (baselineKey cid mt) = some b) :
    detect_anomalies s cid mt m =
      (let current_value := m.value.getD 0
       let z_score := if 0 < b.stddev then |current_value - b.avg| / b.stddev else 0
       let graded :=
         if 3 < z_score then ("critical", true)
         else if 2 < z_score then ("high", true)
         else if 3 / 2 < z_score then ("medium", true)
         else ("normal", false)
       { is_anomaly := graded.2, severity := graded.1, z_score := some (roundTo 3 z_score),
         baseline_avg := some b.avg, baseline_stddev := some b.stddev,
         current_value := some current_value,
         deviation_percent :=
           some (if 0 < b.avg then roundTo 2 (|current_value - b.avg| / b.avg * 100) else 0),
         baseline_available := true } : AnomalyAnalysis) := by
  unfold detect_anomalies
  rw [h]

lemma listMean_replicate (n : ℕ) (x : ℚ) (h : n ≠ 0) :
    listMean (List.replicate n x) = x := by
  unfold listMean
  rw [List.sum_replicate, List.length_replicate, nsmul_eq_mul]
  have hn : (n : ℚ) ≠ 0 := Nat.cast_ne_zero.mpr h
  field_simp

lemma sampleVariance_replicate (n : ℕ) (x : ℚ) (h : n ≠ 0) :
    sampleVariance (List.replicate n x) = 0 := by
  unfold sampleVariance
  rw [listMean_replicate n x h, List.map_replicate]
  simp

lemma sampleStdDev_replicate (n : ℕ) (x : ℚ) (h : n ≠ 0) :
    sampleStdDev (List.replicate n x) = 0 := by
  unfold sampleStdDev
  rw [sampleVariance_replicate n x h]
  decide

lemma roundTo_zero (d : ℕ) : roundTo d 0 = 0 := by
  unfold roundTo
  simp

/-- The z-score expression `detect_anomalies` computes from a stored
baseline and the current value. -/
def zScoreOf (b : Baseline) (v : ℚ) : ℚ :=
  if 0 < b.stddev then |v - b.avg| / b.stddev else 0

/- Claim theorems. -/

/-- C1, counterexample: an event matching both a malware keyword and the
port-scan keyword yields two detected categories with risk score 50, but its
severity is the string high, not critical as the claim states; the claimed
critical tier does not exist in `classify_threat`. -/
theorem claim_C1_counterexample :
    (classify_threat (.parsed "malware detected and port scan activity")).threats_detected =
      ["malware", "network_anomaly"] ∧
    (classify_threat (.parsed "malware detected and port scan activity")).risk_score = 50 ∧
    (classify_threat (.parsed "malware detected and port scan activity")).severity = "high" ∧
    (classify_threat (.parsed "malware detected and port scan activity")).severity ≠
      "critical" := by
  decide

/-- C1, amended: `classify_threat` grades severity from the matched-category
count alone, never consulting the event's declared severity field: at least
2 matches give severity high, exactly 1 gives medium, 0 gives low, and the
risk score is 25 per matched category capped at 100. -/
theorem claim_C1 (text : String) :
    (classify_threat (.parsed text)).threats_detected = detected_threats text ∧
    (1 < (detected_threats text).length → (classify_threat (.parsed text)).severity = "high") ∧
    ((detected_threats text).length = 1 →
      (classify_threat (.parsed text)).severity = "medium") ∧
    ((detected_threats text).length = 0 → (classify_threat (.parsed text)).severity = "low") ∧
    (classify_threat (.parsed text)).risk_score =
      min ((detected_threats text).length * 25) 100 := by
  refine ⟨rfl, fun h => ?_, fun h => ?_, fun h => ?_, rfl⟩
  · show (if 1 < (detected_threats text).length then "high"
      else if 0 < (detected_threats text).length then "medium" else "low") = "high"
    rw [if_pos h]
  · show (if 1 < (detected_threats text).length then "high"
      else if 0 < (detected_threats text).length then "medium" else "low") = "medium"
    rw [h]
    rfl
  · show (if 1 < (detected_threats text).length then "high"
      else if 0 < (detected_threats text).length then "medium" else "low") = "low"
    rw [h]
    rfl

/-- C1, witness: the amended severity rule evaluated at the two-category
event. -/
theorem claim_C1_witness :
    1 < (detected_threats "malware detected and port scan activity").length ∧
    (classify_threat (.parsed "malware detected and port scan activity")).severity = "high" :=
  ⟨by decide, (claim_C1 "malware detected and port scan activity").2.1 (by decide)⟩

/-- C4, counterexample: a message whose store write failed is acknowledged
anyway, because the consumer is configured with automatic offset commits. -/
theorem claim_C4_counterexample :
    message_acknowledged security_consumer_config false = true := rfl

/-- C4, amended: with `enable_auto_commit=True` (interval 1000 ms) the
consumer commits offsets independently of the store-write outcome, and a
failed store write is swallowed inside `store_in_s3` (which returns `None`),
so the message is acknowledged regardless and the transport does not
redeliver it. -/
theorem claim_C4 (storeWriteSucceeded : Bool) (s3_key : String) :
    message_acknowledged security_consumer_config storeWriteSucceeded = true ∧
    store_in_s3 false s3_key = none ∧
    security_consumer_config.enable_auto_commit = true :=
  ⟨rfl, rfl, rfl⟩

/-- C7, counterexample: an alert with severity low but risk score 85 is
routed to the urgent and ticket channels, not to the standard channel only,
so the channel set is not determined by severity alone. -/
theorem claim_C7_counterexample :
    process_security_alert_actions "low" 85 =
      [.snsNotification "CRITICAL", .emailNotification "CRITICAL", .incidentTicket] ∧
    process_security_alert_actions "low" 85 ≠ [.snsNotification "MEDIUM"] := by
  decide

/-- C7, amended: `process_security_alert` routes by severity and risk score
jointly: severity critical or risk above 80 goes to the urgent (SNS + email)
and ticket channels; otherwise severity high or risk above 60 goes to the
urgent channel; otherwise the standard channel only. -/
theorem claim_C7 (severity : String) (risk_score : ℤ) :
    (severity = "critical" ∨ 80 < risk_score →
      process_security_alert_actions severity risk_score =
        [.snsNotification "CRITICAL", .emailNotification "CRITICAL", .incidentTicket]) ∧
    (¬(severity = "critical" ∨ 80 < risk_score) → (severity = "high" ∨ 60 < risk_score) →
      process_security_alert_actions severity risk_score =
        [.snsNotification "HIGH", .emailNotification "HIGH"]) ∧
    (¬(severity = "critical" ∨ 80 < risk_score) → ¬(severity = "high" ∨ 60 < risk_score) →
      process_security_alert_actions severity risk_score = [.snsNotification "MEDIUM"]) := by
  unfold process_security_alert_actions
  refine ⟨fun h => ?_, fun h1 h2 => ?_, fun h1 h2 => ?_⟩
  · rw [if_pos h]
  · rw [if_neg h1, if_pos h2]
  · rw [if_neg h1, if_neg h2]

/-- C7, witness: the amended routing rule evaluated at a critical alert. -/
theorem claim_C7_witness :
    (("critical" : String) = "critical" ∨ (80 : ℤ) < 0) ∧
    process_security_alert_actions "critical" 0 =
      [.snsNotification "CRITICAL", .emailNotification "CRITICAL", .incidentTicket] :=
  ⟨Or.inl rfl, (claim_C7 "critical" 0).1 (Or.inl rfl)⟩

/-- C8, counterexample: on malformed input `classify_threat` returns
severity unknown, not the claimed severity low. -/
theorem claim_C8_counterexample :
    (classify_threat (.malformed "unserializable payload")).severity = "unknown" ∧
    (classify_threat (.malformed "unserializable payload")).severity ≠ "low" := by
  decide

/-- C8, amended: `classify_threat` does not raise on malformed input; its
exception handler returns the fail-open classification with severity the
string unknown, risk score 0, an empty category list and the error recorded. -/
theorem claim_C8 (err : String) :
    classify_threat (.malformed err) =
      { threats_detected := [], severity := "unknown", risk_score := 0, error := some err } :=
  rfl

/-- C2: `detect_anomalies` returns no anomaly and no baseline flag when the
key has no baseline; with a baseline it z-scores the value against the
stored mean and standard deviation (z = 0 when the deviation is 0), grades
severity by the thresholds 3, 2 and 1.5, reports an anomaly exactly when the
severity is not normal, and on the mean-100 / deviation-10 baseline the
value 135 yields z 3.5, severity critical, anomaly true. -/
theorem claim_C2 (s : MetricsState) (cid mt : String) (m : MetricSample) :
    (s.baselineMetrics (baselineKey cid mt) = none →
      (detect_anomalies s cid mt m).baseline_available = false ∧
      (detect_anomalies s cid mt m).is_anomaly = false) ∧
    (∀ b, s.baselineMetrics (baselineKey cid mt) = some b →
      (detect_anomalies s cid mt m).baseline_available = true ∧
      (detect_anomalies s cid mt m).z_score =
        some (roundTo 3 (zScoreOf b (m.value.getD 0))) ∧
      ((detect_anomalies s cid mt m).severity = "critical" ↔
        3 < zScoreOf b (m.value.getD 0)) ∧
      ((detect_anomalies s cid mt m).severity = "high" ↔
        2 < zScoreOf b (m.value.getD 0) ∧ zScoreOf b (m.value.getD 0) ≤ 3) ∧
      ((detect_anomalies s cid mt m).severity = "medium" ↔
        3 / 2 < zScoreOf b (m.value.getD 0) ∧ zScoreOf b (m.value.getD 0) ≤ 2) ∧
      ((detect_anomalies s cid mt m).severity = "normal" ↔
        zScoreOf b (m.value.getD 0) ≤ 3 / 2) ∧
      ((detect_anomalies s cid mt m).is_anomaly = true ↔
        (detect_anomalies s cid mt m).severity ≠ "normal")) ∧
    ((detect_anomalies (stateWithBaseline (baselineKey "acme" "latency") scenarioBaseline)
        "acme" "latency" ⟨"acme", "latency", some 135⟩).z_score = some (7 / 2) ∧
     (detect_anomalies (stateWithBaseline (baselineKey "acme" "latency") scenarioBaseline)
        "acme" "latency" ⟨"acme", "latency", some 135⟩).severity = "critical" ∧
     (detect_anomalies (stateWithBaseline (baselineKey "acme" "latency") scenarioBaseline)
        "acme" "latency" ⟨"acme", "latency", some 135⟩).is_anomaly = true) := by
  have hkey : (stateWithBaseline (baselineKey "acme" "latency") scenarioBaseline).baselineMetrics
      (baselineKey "acme" "latency") = some scenarioBaseline := by
    simp [stateWithBaseline]
  have habs : |(135 : ℚ) - 100| = 35 := by
    rw [show (135 : ℚ) - 100 = 35 by norm_num]
    exact abs_of_pos (by norm_num)
  refine ⟨?_, ?_, ?_, ?_, ?_⟩
  · intro h
    rw [detect_anomalies_none m h]
    exact ⟨rfl, rfl⟩
  · intro b hb
    rw [detect_anomalies_some m hb]
    simp only [zScoreOf]
    set v := m.value.getD 0 with hv
    set z := if 0 < b.stddev then |v - b.avg| / b.stddev else 0 with hz
    simp only [apply_ite Prod.fst, apply_ite Prod.snd]
    by_cases h3 : 3 < z
    · simp only [if_pos h3]
      refine ⟨trivial, trivial, by simp [h3], ?_, ?_, ?_, by simp⟩
      · simp only [show ("critical" : String) = "high" ↔ False by simp, false_iff]
        intro hc
        linarith [hc.2]
      · simp only [show ("critical" : String) = "medium" ↔ False by simp, false_iff]
        intro hc
        linarith [hc.2]
      · simp only [show ("critical" : String) = "normal" ↔ False by simp, false_iff]
        intro hc
        linarith
    · by_cases h2 : 2 < z
      · simp only [if_neg h3, if_pos h2]
        refine ⟨trivial, trivial, by simp [h3], ?_, ?_, ?_, by simp⟩
        · simp only [show ("high" : String) = "high" ↔ True by simp, true_iff]
          exact ⟨h2, not_lt.mp h3⟩
        · simp only [show ("high" : String) = "medium" ↔ False by simp, false_iff]
          intro hc
          linarith [hc.2]
        · simp only [show ("high" : String) = "normal" ↔ False by simp, false_iff]
          intro hc
          linarith
      · by_cases h15 : 3 / 2 < z
        · simp only [if_neg h3, if_neg h2, if_pos h15]
          refine ⟨trivial, trivial, by simp [h3], ?_, ?_, ?_, by simp⟩
          · simp only [show ("medium" : String) = "high" ↔ False by simp, false_iff]
            intro hc
            exact h2 hc.1
          · simp only [show ("medium" : String) = "medium" ↔ True by simp, true_iff]
            exact ⟨h15, not_lt.mp h2⟩
          · simp only [show ("medium" : String) = "normal" ↔ False by simp, false_iff]
            intro hc
            linarith
        · simp only [if_neg h3, if_neg h2, if_neg h15]
          refine ⟨trivial, trivial, by simp [h3], ?_, ?_, ?_, by simp⟩
          · simp only [show ("normal" : String) = "high" ↔ False by simp, false_iff]
            intro hc
            exact h2 hc.1
          · simp only [show ("normal" : String) = "medium" ↔ False by simp, false_iff]
            intro hc
            exact h15 hc.1
          · simp only [show ("normal" : String) = "normal" ↔ True by simp, true_iff]
            exact not_lt.mp h15
  · rw [detect_anomalies_some _ hkey]
    simp only [scenarioBaseline, Option.getD_some]
    norm_num [habs, roundTo, round_eq]
  · rw [detect_anomalies_some _ hkey]
    simp only [scenarioBaseline, Option.getD_some]
    norm_num [habs]
  · rw [detect_anomalies_some _ hkey]
    simp only [scenarioBaseline, Option.getD_some]
    norm_num [habs]

/-- C2, witness: on a state without a baseline for the key, detection
reports no baseline and no anomaly. -/
theorem claim_C2_witness :
    initState.baselineMetrics (baselineKey "c" "m") = none ∧
    (detect_anomalies initState "c" "m" ⟨"c", "m", some 5⟩).baseline_available = false ∧
    (detect_anomalies initState "c" "m" ⟨"c", "m", some 5⟩).is_anomaly = false :=
  ⟨rfl, (claim_C2 initState "c" "m" ⟨"c", "m", some 5⟩).1 rfl⟩

/-- C5: `process_metric` runs `detect_anomalies` strictly before
`update_baseline` for the same sample, so the attached analysis is computed
from the pre-update baseline: after 50 identical values 10, processing the
value 100 reports baseline mean 10 (with z 0, since 50 identical values have
standard deviation 0), whereas detecting after the update would report the
blended mean 600/51 instead. -/
theorem claim_C5 :
    (∀ (s : MetricsState) (m : MetricSample),
      (process_metric s m).1 = detect_anomalies s m.customer_id m.metric_type m) ∧
    (∀ (s : MetricsState) (m : MetricSample),
      (process_metric s m).2 = update_baseline s m.customer_id m.metric_type (m.value.getD 0)) ∧
    ((process_metric (applyUpdates "acme" "latency" initState (List.replicate 50 10))
        ⟨"acme", "latency", some 100⟩).1.baseline_avg = some 10) ∧
    ((process_metric (applyUpdates "acme" "latency" initState (List.replicate 50 10))
        ⟨"acme", "latency", some 100⟩).1.z_score = some 0) ∧
    ((detect_anomalies
        (process_metric (applyUpdates "acme" "latency" initState (List.replicate 50 10))
          ⟨"acme", "latency", some 100⟩).2
        "acme" "latency" ⟨"acme", "latency", some 100⟩).baseline_avg = some (600 / 51)) ∧
    ((600 : ℚ) / 51 ≠ 10) := by
  have hhist : (applyUpdates "acme" "latency" initState
      (List.replicate 50 (10 : ℚ))).customerMetrics "acme" "latency" =
      List.replicate 50 (10 : ℚ) := by
    have h := @applyUpdates_hist_no_trunc "acme" "latency" initState
      (List.replicate 50 (10 : ℚ)) (by simp [initState])
    rw [show initState.customerMetrics "acme" "latency" = [] from rfl,
      List.nil_append] at h
    exact h
  have hbase : (applyUpdates "acme" "latency" initState
      (List.replicate 50 (10 : ℚ))).baselineMetrics (baselineKey "acme" "latency") =
      some (computeBaseline (List.replicate 50 (10 : ℚ))) := by
    rw [baseline_after_init, if_pos (by simp), hhist]
  have havg : (computeBaseline (List.replicate 50 (10 : ℚ))).avg = 10 := by
    unfold computeBaseline
    exact listMean_replicate 50 10 (by norm_num)
  have hstd : (computeBaseline (List.replicate 50 (10 : ℚ))).stddev = 0 := by
    unfold computeBaseline
    simp only [List.length_replicate]
    rw [if_pos (by norm_num)]
    exact sampleStdDev_replicate 50 10 (by norm_num)
  refine ⟨fun s m => rfl, fun s m => rfl, ?_, ?_, ?_, by norm_num⟩
  · show (detect_anomalies (applyUpdates "acme" "latency" initState (List.replicate 50 10))
      "acme" "latency" ⟨"acme", "latency", some 100⟩).baseline_avg = some 10
    rw [detect_anomalies_some _ hbase]
    simp only [havg]
  · show (detect_anomalies (applyUpdates "acme" "latency" initState (List.replicate 50 10))
      "acme" "latency" ⟨"acme", "latency", some 100⟩).z_score = some 0
    rw [detect_anomalies_some _ hbase]
    simp only [hstd]
    norm_num [roundTo_zero]
  · show (detect_anomalies
      (update_baseline (applyUpdates "acme" "latency" initState (List.replicate 50 10))
        "acme" "latency" 100)
      "acme" "latency" ⟨"acme", "latency", some 100⟩).baseline_avg = some (600 / 51)
    have hbase2 : (update_baseline (applyUpdates "acme" "latency" initState
        (List.replicate 50 (10 : ℚ))) "acme" "latency" 100).baselineMetrics
        (baselineKey "acme" "latency") =
        some (computeBaseline (List.replicate 50 (10 : ℚ) ++ [100])) := by
      rw [update_baseline_base, hhist, keepLast1000_of_le (by simp), if_pos (by simp)]
    rw [detect_anomalies_some _ hbase2]
    have havg2 : (computeBaseline (List.replicate 50 (10 : ℚ) ++ [100])).avg = 600 / 51 := by
      unfold computeBaseline listMean
      rw [List.sum_append, List.sum_replicate, List.length_append, List.length_replicate,
        nsmul_eq_mul]
      norm_num
    simp only [havg2]

/-- C6, counterexample: after a single update for a fresh key no baseline
entry exists at all, so the baseline's sample count does not equal 1 as the
claim asserts for every N; a baseline entry first appears at the 50th
update. -/
theorem claim_C6_counterexample :
    (applyUpdates "c" "m" initState [5]).baselineMetrics (baselineKey "c" "m") = none ∧
    sampleCountAt (applyUpdates "c" "m" initState [5]) "c" "m" = 0 := by
  decide

/-- C6, amended: for a fresh key, fewer than 50 updates leave no baseline
entry; from the 50th update on the entry exists and its sample count is the
number of updates capped at the retention bound 1000; and the recorded
sample count (0 while absent) never decreases as further updates arrive. -/
theorem claim_C6 (cid mt : String) (vs : List ℚ) :
    (vs.length < 50 →
      (applyUpdates cid mt initState vs).baselineMetrics (baselineKey cid mt) = none) ∧
    (50 ≤ vs.length →
      ∃ b, (applyUpdates cid mt initState vs).baselineMetrics (baselineKey cid mt) = some b ∧
        b.sample_count = min vs.length 1000) ∧
    (∀ ws, sampleCountAt (applyUpdates cid mt initState vs) cid mt ≤
      sampleCountAt (applyUpdates cid mt initState (vs ++ ws)) cid mt) := by
  refine ⟨fun h => ?_, fun h => ?_, fun ws => ?_⟩
  · rw [baseline_after_init, if_neg (by omega)]
  · refine ⟨computeBaseline ((applyUpdates cid mt initState vs).customerMetrics cid mt),
      ?_, ?_⟩
    · rw [baseline_after_init, if_pos (by omega)]
    · have hl := @applyUpdates_hist_len cid mt initState
        (by simp [initState]) vs
      rw [show (initState.customerMetrics cid mt).length = 0 from rfl, Nat.zero_add] at hl
      exact hl
  · rw [sampleCountAt_after_init, sampleCountAt_after_init, List.length_append]
    split_ifs <;> omega

/-- C6, witness: the amended statement evaluated at 50 updates of the value
10: the baseline exists with sample count 50. -/
theorem claim_C6_witness :
    50 ≤ (List.replicate 50 (10 : ℚ)).length ∧
    (∃ b, (applyUpdates "c" "m" initState
        (List.replicate 50 (10 : ℚ))).baselineMetrics (baselineKey "c" "m") = some b ∧
      b.sample_count = min (List.replicate 50 (10 : ℚ)).length 1000) :=
  ⟨by decide, (claim_C6 "c" "m" (List.replicate 50 (10 : ℚ))).2.1 (by decide)⟩

/-- C10: for a fresh key no baseline entry is created before the 50th
update, and while none exists `detect_anomalies` reports no baseline and no
anomaly; from the 50th update on the entry exists and detection reports the
baseline as available. -/
theorem claim_C10 (cid mt : String) (vs : List ℚ) (m : MetricSample) :
    (vs.length < 50 →
      (applyUpdates cid mt initState vs).baselineMetrics (baselineKey cid mt) = none ∧
      (detect_anomalies (applyUpdates cid mt initState vs) cid mt m).baseline_available =
        false ∧
      (detect_anomalies (applyUpdates cid mt initState vs) cid mt m).is_anomaly = false) ∧
    (50 ≤ vs.length →
      ∃ b, (applyUpdates cid mt initState vs).baselineMetrics (baselineKey cid mt) = some b ∧
        (detect_anomalies (applyUpdates cid mt initState vs) cid mt m).baseline_available =
          true) := by
  constructor
  · intro h
    have hb : (applyUpdates cid mt initState vs).baselineMetrics (baselineKey cid mt) =
        none := by
      rw [baseline_after_init, if_neg (by omega)]
    refine ⟨hb, ?_, ?_⟩
    · rw [detect_anomalies_none m hb]
    · rw [detect_anomalies_none m hb]
  · intro h
    have hb : (applyUpdates cid mt initState vs).baselineMetrics (baselineKey cid mt) =
        some (computeBaseline ((applyUpdates cid mt initState vs).customerMetrics cid mt)) := by
      rw [baseline_after_init, if_pos (by omega)]
    exact ⟨_, hb, by rw [detect_anomalies_some m hb]⟩

/-- C10, witness: after 49 updates detection still reports no baseline;
after 50 updates the baseline exists and detection reports it available. -/
theorem claim_C10_witness :
    (List.replicate 49 (10 : ℚ)).length < 50 ∧
    (detect_anomalies (applyUpdates "c" "m" initState (List.replicate 49 (10 : ℚ)))
      "c" "m" ⟨"c", "m", some 100⟩).baseline_available = false ∧
    50 ≤ (List.replicate 50 (10 : ℚ)).length ∧
    (∃ b, (applyUpdates "c" "m" initState
        (List.replicate 50 (10 : ℚ))).baselineMetrics (baselineKey "c" "m") = some b ∧
      (detect_anomalies (applyUpdates "c" "m" initState (List.replicate 50 (10 : ℚ)))
        "c" "m" ⟨"c", "m", some 100⟩).baseline_available = true) :=
  ⟨by decide,
   ((claim_C10 "c" "m" (List.replicate 49 (10 : ℚ)) ⟨"c", "m", some 100⟩).1 (by decide)).2.1,
   by decide,
   (claim_C10 "c" "m" (List.replicate 50 (10 : ℚ)) ⟨"c", "m", some 100⟩).2 (by decide)⟩

/-- C3, counterexample: a single-sample batch does not yield the empty
result: count, sum, mean, min, max and median are produced for any batch
with at least one usable value; only the percentile keys need 10. -/
theorem claim_C3_counterexample :
    (calculate_aggregations [⟨"c", "m", some 5⟩]).count = some 1 ∧
    (calculate_aggregations [⟨"c", "m", some 5⟩]).median = some 5 ∧
    (calculate_aggregations [⟨"c", "m", some 5⟩]).p50 = none ∧
    AggResult.empty.count = none := by
  decide

/-- C3, amended: `calculate_aggregations` returns the empty result exactly
when the batch has no usable values; any non-empty value list yields count,
sum, mean, min, max and median, while the percentile keys are produced
exactly for batches of at least 10 values. -/
theorem claim_C3 (samples : List MetricSample) :
    ((samples.filterMap (fun m => m.value)).isEmpty = true →
      calculate_aggregations samples = AggResult.empty) ∧
    ((samples.filterMap (fun m => m.value)).isEmpty = false →
      (calculate_aggregations samples).count =
        some (samples.filterMap (fun m => m.value)).length ∧
      (calculate_aggregations samples).sum.isSome = true ∧
      (calculate_aggregations samples).avg.isSome = true ∧
      (calculate_aggregations samples).min.isSome = true ∧
      (calculate_aggregations samples).max.isSome = true ∧
      (calculate_aggregations samples).median.isSome = true) ∧
    ((samples.filterMap (fun m => m.value)).length < 10 →
      (calculate_aggregations samples).p50 = none ∧
      (calculate_aggregations samples).p90 = none ∧
      (calculate_aggregations samples).p95 = none ∧
      (calculate_aggregations samples).p99 = none) ∧
    (10 ≤ (samples.filterMap (fun m => m.value)).length →
      (calculate_aggregations samples).p50.isSome = true ∧
      (calculate_aggregations samples).p90.isSome = true ∧
      (calculate_aggregations samples).p95.isSome = true ∧
      (calculate_aggregations samples).p99.isSome = true) := by
  by_cases hv : (samples.filterMap (fun m => m.value)).isEmpty = true
  · have hv0 : samples.filterMap (fun m => m.value) = [] := by
      rwa [List.isEmpty_iff] at hv
    have hemp : calculate_aggregations samples = AggResult.empty := by
      unfold calculate_aggregations
      simp [hv0]
    refine ⟨fun _ => hemp, fun hfalse => ?_, fun _ => ?_, fun h => ?_⟩
    · rw [hfalse] at hv
      exact absurd hv (by simp)
    · rw [hemp]
      exact ⟨rfl, rfl, rfl, rfl⟩
    · rw [hv0] at h
      simp at h
  · have hvf : (samples.filterMap (fun m => m.value)).isEmpty = false := by
      rwa [Bool.not_eq_true] at hv
    have hvne : samples.filterMap (fun m => m.value) ≠ [] := by
      intro he
      rw [he] at hvf
      simp at hvf
    have hsf : samples.isEmpty = false := by
      cases samples with
      | nil => exact absurd rfl hvne
      | cons a t => rfl
    have hrec := calc_agg_eq samples hsf hvf
    have hcount : (calculate_aggregations samples).count =
        some (samples.filterMap (fun m => m.value)).length := by rw [hrec]
    have hsum : (calculate_aggregations samples).sum =
        some (samples.filterMap (fun m => m.value)).sum := by rw [hrec]
    have havg : (calculate_aggregations samples).avg =
        some (listMean (samples.filterMap (fun m => m.value))) := by rw [hrec]
    have hmin : (calculate_aggregations samples).min =
        (samples.filterMap (fun m => m.value)).min? := by rw [hrec]
    have hmax : (calculate_aggregations samples).max =
        (samples.filterMap (fun m => m.value)).max? := by rw [hrec]
    have hmed : (calculate_aggregations samples).median =
        some (listMedian (samples.filterMap (fun m => m.value))) := by rw [hrec]
    have hp50 : (calculate_aggregations samples).p50 =
        (if 10 ≤ (samples.filterMap (fun m => m.value)).length
         then some (medianOfSorted (sortValues (samples.filterMap (fun m => m.value))))
         else none) := by rw [hrec]
    have hp90 : (calculate_aggregations samples).p90 =
        (if 10 ≤ (samples.filterMap (fun m => m.value)).length
         then some ((sortValues (samples.filterMap (fun m => m.value))).getD
           (pIdx (samples.filterMap (fun m => m.value)).length (9 / 10)) 0)
         else none) := by rw [hrec]
    have hp95 : (calculate_aggregations samples).p95 =
        (if 10 ≤ (samples.filterMap (fun m => m.value)).length
         then some ((sortValues (samples.filterMap (fun m => m.value))).getD
           (pIdx (samples.filterMap (fun m => m.value)).length (95 / 100)) 0)
         else none) := by rw [hrec]
    have hp99 : (calculate_aggregations samples).p99 =
        (if 10 ≤ (samples.filterMap (fun m => m.value)).length
         then some ((sortValues (samples.filterMap (fun m => m.value))).getD
           (pIdx (samples.filterMap (fun m => m.value)).length (99 / 100)) 0)
         else none) := by rw [hrec]
    obtain ⟨mn, hmn⟩ := rat_min?_isSome hvne
    obtain ⟨mx, hmx⟩ := rat_max?_isSome hvne
    refine ⟨fun h => absurd h hv, fun _ => ?_, fun h => ?_, fun h => ?_⟩
    · refine ⟨hcount, ?_, ?_, ?_, ?_, ?_⟩
      · rw [hsum]
        rfl
      · rw [havg]
        rfl
      · rw [hmin, hmn]
        rfl
      · rw [hmax, hmx]
        rfl
      · rw [hmed]
        rfl
    · refine ⟨?_, ?_, ?_, ?_⟩
      · rw [hp50, if_neg (by omega)]
      · rw [hp90, if_neg (by omega)]
      · rw [hp95, if_neg (by omega)]
      · rw [hp99, if_neg (by omega)]
    · refine ⟨?_, ?_, ?_, ?_⟩
      · rw [hp50, if_pos h]
        rfl
      · rw [hp90, if_pos h]
        rfl
      · rw [hp95, if_pos h]
        rfl
      · rw [hp99, if_pos h]
        rfl

/-- C3, witness: the amended statement evaluated at the single-sample batch:
base statistics are produced and the percentile keys are absent. -/
theorem claim_C3_witness :
    (([⟨"c", "m", some 5⟩] : List MetricSample).filterMap
      (fun m => m.value)).isEmpty = false ∧
    (calculate_aggregations [⟨"c", "m", some 5⟩]).count =
      some (([⟨"c", "m", some 5⟩] : List MetricSample).filterMap (fun m => m.value)).length ∧
    (([⟨"c", "m", some 5⟩] : List MetricSample).filterMap (fun m => m.value)).length < 10 ∧
    (calculate_aggregations [⟨"c", "m", some 5⟩]).p50 = none :=
  ⟨by decide,
   ((claim_C3 [⟨"c", "m", some 5⟩]).2.1 (by decide)).1,
   by decide,
   ((claim_C3 [⟨"c", "m", some 5⟩]).2.2.1 (by decide)).1⟩

/-- C9, counterexample: on the batch 1..10 the produced p50 is the
interpolated median 11/2, not the element 6 found at the index-based
position floor(10 × 0.5) = 5, so p50 is not index-based as the claim
asserts for every percentile. -/
theorem claim_C9_counterexample :
    (calculate_aggregations tenSamples).p50 = some (11 / 2) ∧
    (sortValues (tenSamples.filterMap (fun m => m.value))).getD
      (pIdx (tenSamples.filterMap (fun m => m.value)).length (1 / 2)) 0 = 6 ∧
    ((11 : ℚ) / 2) ≠ 6 := by
  have hfm : tenSamples.filterMap (fun m => m.value) = [1, 2, 3, 4, 5, 6, 7, 8, 9, 10] := by
    decide
  have hsort : sortValues ([1, 2, 3, 4, 5, 6, 7, 8, 9, 10] : List ℚ) =
      [1, 2, 3, 4, 5, 6, 7, 8, 9, 10] := by
    norm_num [sortValues, List.insertionSort, List.orderedInsert]
  refine ⟨?_, ?_, by norm_num⟩
  · rw [calc_agg_eq tenSamples (by decide) (by decide)]
    simp only [hfm, hsort]
    norm_num [medianOfSorted, listMedian, pIdx, List.getD, hsort]
  · rw [hfm, hsort]
    norm_num [pIdx, List.getD]

/-- C9, amended: for a batch of at least 10 samples that all carry values,
the aggregation's count equals the number of input samples, p90, p95 and p99
are the elements of the sorted value list at the index-based positions
floor(n × q) (no clamping is ever needed since q < 1), p50 is the median of
the sorted values (interpolated for even length, not index-based), and the
ordering min ≤ p50 ≤ p90 ≤ p95 ≤ p99 ≤ max holds. -/
theorem claim_C9 (samples : List MetricSample)
    (hall : ∀ x ∈ samples, x.value.isSome = true)
    (h10 : 10 ≤ (samples.filterMap (fun m => m.value)).length) :
    (calculate_aggregations samples).count = some samples.length ∧
    (calculate_aggregations samples).p50 =
      some (medianOfSorted (sortValues (samples.filterMap (fun m => m.value)))) ∧
    (calculate_aggregations samples).p90 =
      some ((sortValues (samples.filterMap (fun m => m.value))).getD
        (9 * (samples.filterMap (fun m => m.value)).length / 10) 0) ∧
    (calculate_aggregations samples).p95 =
      some ((sortValues (samples.filterMap (fun m => m.value))).getD
        (95 * (samples.filterMap (fun m => m.value)).length / 100) 0) ∧
    (calculate_aggregations samples).p99 =
      some ((sortValues (samples.filterMap (fun m => m.value))).getD
        (99 * (samples.filterMap (fun m => m.value)).length / 100) 0) ∧
    (calculate_aggregations samples).min.isSome = true ∧
    (calculate_aggregations samples).max.isSome = true ∧
    ((calculate_aggregations samples).min.getD 0 ≤ (calculate_aggregations samples).p50.getD 0 ∧
     (calculate_aggregations samples).p50.getD 0 ≤ (calculate_aggregations samples).p90.getD 0 ∧
     (calculate_aggregations samples).p90.getD 0 ≤ (calculate_aggregations samples).p95.getD 0 ∧
     (calculate_aggregations samples).p95.getD 0 ≤ (calculate_aggregations samples).p99.getD 0 ∧
     (calculate_aggregations samples).p99.getD 0 ≤
       (calculate_aggregations samples).max.getD 0) := by
  have hvne : samples.filterMap (fun m => m.value) ≠ [] := by
    intro he
    rw [he] at h10
    simp at h10
  have hvf : (samples.filterMap (fun m => m.value)).isEmpty = false := by
    cases he : samples.filterMap (fun m => m.value) with
    | nil => exact absurd he hvne
    | cons a t => rfl
  have hsf : samples.isEmpty = false := by
    cases samples with
    | nil => exact absurd rfl hvne
    | cons a t => rfl
  have hrec := calc_agg_eq samples hsf hvf
  have hcount : (calculate_aggregations samples).count =
      some (samples.filterMap (fun m => m.value)).length := by rw [hrec]
  have hmin : (calculate_aggregations samples).min =
      (samples.filterMap (fun m => m.value)).min? := by rw [hrec]
  have hmax : (calculate_aggregations samples).max =
      (samples.filterMap (fun m => m.value)).max? := by rw [hrec]
  have hp50 : (calculate_aggregations samples).p50 =
      some (medianOfSorted (sortValues (samples.filterMap (fun m => m.value)))) := by
    rw [hrec]
    exact if_pos h10
  have hp90 : (calculate_aggregations samples).p90 =
      some ((sortValues (samples.filterMap (fun m => m.value))).getD
        (9 * (samples.filterMap (fun m => m.value)).length / 10) 0) := by
    rw [hrec, ← pIdx_90]
    exact if_pos h10
  have hp95 : (calculate_aggregations samples).p95 =
      some ((sortValues (samples.filterMap (fun m => m.value))).getD
        (95 * (samples.filterMap (fun m => m.value)).length / 100) 0) := by
    rw [hrec, ← pIdx_95]
    exact if_pos h10
  have hp99 : (calculate_aggregations samples).p99 =
      some ((sortValues (samples.filterMap (fun m => m.value))).getD
        (99 * (samples.filterMap (fun m => m.value)).length / 100) 0) := by
    rw [hrec, ← pIdx_99]
    exact if_pos h10
  obtain ⟨mn, mx, hmn, hmx, hc1, hc2, hc3, hc4, hc5⟩ :=
    perc_chain (samples.filterMap (fun m => m.value)) h10
  refine ⟨?_, hp50, hp90, hp95, hp99, ?_, ?_, ?_, ?_, ?_, ?_, ?_⟩
  · rw [hcount, filterMap_values_length hall]
  · rw [hmin, hmn]
    rfl
  · rw [hmax, hmx]
    rfl
  · rw [hmin, hmn, hp50]
    simpa using hc1
  · rw [hp50, hp90]
    simpa using hc2
  · rw [hp90, hp95]
    simpa using hc3
  · rw [hp95, hp99]
    simpa using hc4
  · rw [hp99, hmax, hmx]
    simpa using hc5

/-- C9, witness: the amended statement evaluated at the concrete batch
1..10. -/
theorem claim_C9_witness :
    (∀ x ∈ tenSamples, x.value.isSome = true) ∧
    10 ≤ (tenSamples.filterMap (fun m => m.value)).length ∧
    (calculate_aggregations tenSamples).count = some tenSamples.length :=
  ⟨by decide, by decide, (claim_C9 tenSamples (by decide) (by decide)).1⟩

/-- C5, witness: the detect-before-update ordering evaluated at a concrete
state and sample. -/
theorem claim_C5_witness :
    (process_metric initState ⟨"c", "m", some 5⟩).1 =
      detect_anomalies initState "c" "m" ⟨"c", "m", some 5⟩ :=
  claim_C5.1 initState ⟨"c", "m", some 5⟩
